import Mathlib

/-!
Shallow embedding of `nonconformist/icp.py` (inductive conformal predictors):
the base calibration logic (`BaseIcp.calibrate`, `_update_calibration_set`),
the conformal classifier (`IcpClassifier`: `_update_classes`, `predict`) and
the conformal regressor (`IcpRegressor.predict`).

Feature rows are lists of rationals, labels are rationals, category ids are
integers, nonconformity scores are rationals.  The external nonconformity
function (`fit`/`calc_nc`/`predict`, a collaborator outside this repository)
is a parameter of the state.  Randomness (`np.random.uniform(0, 1, 1)`) is
modelled by an explicit draw function `u : ℕ → ℕ → ℚ` indexed by
(test-example index, class index), constrained to [0, 1) where a claim
needs it.
-/

/-- A feature row `x[i, :]`. -/
abbrev Row := List ℚ

/-- numpy boolean-mask indexing `a[idx]` where `idx` is a boolean array:
keeps the entries at the positions of the `true` entries of the mask.
(For a mask shorter than `a` — which legacy numpy accepted by treating the
mask via its nonzero positions — only positions below the mask length can be
selected; `zip` truncates to the shorter of the two lists.) -/
def maskSelect {α : Type} (a : List α) (mask : List Bool) : List α :=
  ((a.zip mask).filter (fun p => p.2)).map Prod.fst

/-- `np.unique`: the sorted (ascending) list of distinct values. -/
def npUnique {α : Type} [LinearOrder α] (l : List α) : List α :=
  List.insertionSort (· ≤ ·) l.dedup

/-- `np.sort(scores)[::-1]`: sort ascending, then reverse — i.e. the scores
in descending order. -/
def sortDesc (l : List ℚ) : List ℚ :=
  (List.insertionSort (· ≤ ·) l).reverse

/-- `np.searchsorted(a, v, 'left')` on an ascending-sorted array: the
leftmost insertion index, i.e. the number of entries strictly below `v`. -/
def searchsortedL (a : List ℚ) (v : ℚ) : ℕ :=
  a.countP (fun s => decide (s < v))

/-- `np.searchsorted(a, v, 'right')` on an ascending-sorted array: the
rightmost insertion index, i.e. the number of entries at most `v`. -/
def searchsortedR (a : List ℚ) (v : ℚ) : ℕ :=
  a.countP (fun s => decide (s ≤ v))

/-- The p-value computation in the inner loop of `IcpClassifier.predict`
(lines 224–237): the stored (descending) score array is reversed
(`[::-1]`) to ascending order, `n_gt`/`n_eq` come from the two
`searchsorted` insertion points, and the smoothing flag selects the
randomized or the deterministic tie term.  `u` is the value drawn by
`np.random.uniform(0, 1, 1)`. -/
def pValue (stored : List ℚ) (nc : ℚ) (smoothing : Bool) (u : ℚ) : ℚ :=
  let cal := stored.reverse
  let n_cal := cal.length
  let idx_l := searchsortedL cal nc
  let idx_r := searchsortedR cal nc
  let n_gt := n_cal - idx_r
  let n_eq := idx_r - idx_l + 1
  (n_gt : ℚ) / (n_cal + 1) +
    (if smoothing then ((n_eq : ℚ) * u) / (n_cal + 1)
     else (n_eq : ℚ) / (n_cal + 1))

/-- State of an `IcpClassifier` (which inherits the `BaseIcp` fields).
`cal` is `None` before the first `calibrate` call, otherwise
`(cal_x, cal_y)`; likewise `classes`.  `cal_scores` is the per-category
score table as a total function: for the conditional case the source uses a
`defaultdict` whose default is an empty array, and for the non-conditional
case only key `0` is ever read (the default condition is constantly `0`). -/
structure IcpClassifier where
  ncf : List Row → List ℚ → List ℚ
  condition : Row × Option ℚ → ℤ
  conditional : Bool
  smoothing : Bool
  cal : Option (List Row × List ℚ)
  classes : Option (List ℚ)
  categories : List ℤ
  cal_scores : ℤ → List ℚ

/-- `BaseIcp.__init__` + `IcpClassifier.__init__`: a missing condition
function installs the constant-`0` condition and clears the `conditional`
flag. -/
def IcpClassifier.init (ncf : List Row → List ℚ → List ℚ)
    (cond : Option (Row × Option ℚ → ℤ)) (smoothing : Bool) : IcpClassifier :=
  { ncf := ncf
    condition := cond.getD (fun _ => 0)
    conditional := cond.isSome
    smoothing := smoothing
    cal := none
    classes := none
    categories := []
    cal_scores := fun _ => [] }

/-- `IcpClassifier._update_classes`: replace the registry with
`np.unique(y)` when there is no registry yet or `increment` is false,
otherwise merge: `np.unique(np.hstack([classes, y]))`. -/
def updateClasses (classes : Option (List ℚ)) (y : List ℚ)
    (increment : Bool) : List ℚ :=
  match classes, increment with
  | some cs, true => npUnique (cs ++ y)
  | _, _ => npUnique y

/-- `BaseIcp._update_calibration_set`: append (`np.vstack`/`np.hstack`) when
incrementing onto an existing set, otherwise replace. -/
def updateCalibrationSet (cal : Option (List Row × List ℚ)) (x : List Row)
    (y : List ℚ) (increment : Bool) : List Row × List ℚ :=
  match increment, cal with
  | true, some (cx, cy) => (cx ++ x, cy ++ y)
  | _, _ => (x, y)

/-- The category/score-table computation of `BaseIcp.calibrate`
(lines 79–93).  Note that in the conditional branch the source builds
`category_map` from the *arguments* `x, y` of the call (lines 80–81), not
from the merged `self.cal_x, self.cal_y`, and then uses that map as a
boolean mask into the merged set (lines 86–88).  In the conditional branch
the table is a `defaultdict` defaulting to an empty array; in the
non-conditional branch it is the plain dict `{0: scores}` (keys other than
`0` would raise `KeyError`, but the default condition only ever produces
`0`). -/
def calibrateScores (ncf : List Row → List ℚ → List ℚ) (isCond : Bool)
    (c : Row × Option ℚ → ℤ) (cal_x : List Row) (cal_y : List ℚ)
    (x : List Row) (y : List ℚ) : List ℤ × (ℤ → List ℚ) :=
  if isCond then
    let category_map := (x.zip y).map (fun p => c (p.1, some p.2))
    let cats := npUnique category_map
    (cats, fun cond =>
      if cond ∈ cats then
        sortDesc (ncf
          (maskSelect cal_x (category_map.map (fun m => decide (m = cond))))
          (maskSelect cal_y (category_map.map (fun m => decide (m = cond)))))
      else [])
  else
    ([0], fun cond => if cond = 0 then sortDesc (ncf cal_x cal_y) else [])

/-- `IcpClassifier.calibrate` = `BaseIcp.calibrate` with the classifier's
`_calibrate_hook` (class-registry update) run first. -/
def IcpClassifier.calibrate (s : IcpClassifier) (x : List Row) (y : List ℚ)
    (increment : Bool) : IcpClassifier :=
  let classes := updateClasses s.classes y increment
  let cal := updateCalibrationSet s.cal x y increment
  let cs := calibrateScores s.ncf s.conditional s.condition cal.1 cal.2 x y
  { s with classes := some classes, cal := some cal,
           categories := cs.1, cal_scores := cs.2 }

/-- The body of the double loop of `IcpClassifier.predict` (lines 214–237)
for test example `j` and the `i`-th class of the registry `cs`:
`test_class` is `x.shape[0]` copies of the class, `test_nc_scores` comes
from the nonconformity function, and the p-value is computed against the
score array of the category of `(x[j, :], c)`.  A row index beyond
`test_nc_scores` keeps the `np.zeros` initialisation of `p`. -/
def pEntry (s : IcpClassifier) (x : List Row) (u : ℕ → ℕ → ℚ)
    (cs : List ℚ) (j i : ℕ) : ℚ :=
  let c := cs.getD i 0
  let ncs := s.ncf x (List.replicate x.length c)
  if j < ncs.length then
    pValue (s.cal_scores (s.condition (x.getD j [], some c)))
      (ncs.getD j 0) s.smoothing (u j i)
  else 0

/-- `IcpClassifier.predict` with `significance=None`: the p-value matrix
`p[j][i]` for test example `j` and the `i`-th class of the registry
(lines 212–237, 242).  Accessing `self.classes` before any `calibrate`
call fails in the source; here that is the `none` case. -/
def IcpClassifier.predict_p (s : IcpClassifier) (x : List Row)
    (u : ℕ → ℕ → ℚ) : Option (List (List ℚ)) :=
  s.classes.map (fun classes =>
    (List.range x.length).map (fun j =>
      (List.range classes.length).map (fun i => pEntry s x u classes j i)))

/-- `IcpClassifier.predict` with a numeric significance: `return p >
significance` (lines 239–240), elementwise on the p-value matrix. -/
def IcpClassifier.predict_sig (s : IcpClassifier) (x : List Row)
    (u : ℕ → ℕ → ℚ) (significance : ℚ) : Option (List (List Bool)) :=
  (s.predict_p x u).map (fun p =>
    p.map (fun row => row.map (fun v => decide (significance < v))))

/-- Entry `(j, i)` of an optional rational matrix, with the `np.zeros`
default `0` out of range. -/
def mGet (m : Option (List (List ℚ))) (j i : ℕ) : ℚ :=
  ((m.getD []).getD j []).getD i 0

/-- Entry `(j, i)` of an optional boolean matrix, default `false`. -/
def bGet (m : Option (List (List Bool))) (j i : ℕ) : Bool :=
  ((m.getD []).getD j []).getD i false

/-- State of an `IcpRegressor`.  `ncPredict` is the external nonconformity
function's `predict(x, cal_scores, significance)` for a single scalar
significance, returning one (lower, upper) pair per row of `x`. -/
structure IcpRegressor where
  ncf : List Row → List ℚ → List ℚ
  ncPredict : List Row → List ℚ → ℚ → List (ℚ × ℚ)
  condition : Row × Option ℚ → ℤ
  conditional : Bool
  cal : Option (List Row × List ℚ)
  categories : List ℤ
  cal_scores : ℤ → List ℚ

/-- `BaseIcp.__init__` for the regressor. -/
def IcpRegressor.init (ncf : List Row → List ℚ → List ℚ)
    (ncPredict : List Row → List ℚ → ℚ → List (ℚ × ℚ))
    (cond : Option (Row × Option ℚ → ℤ)) : IcpRegressor :=
  { ncf := ncf
    ncPredict := ncPredict
    condition := cond.getD (fun _ => 0)
    conditional := cond.isSome
    cal := none
    categories := []
    cal_scores := fun _ => [] }

/-- `IcpRegressor.calibrate` = `BaseIcp.calibrate` (the regressor has no
hook). -/
def IcpRegressor.calibrate (s : IcpRegressor) (x : List Row) (y : List ℚ)
    (increment : Bool) : IcpRegressor :=
  let cal := updateCalibrationSet s.cal x y increment
  let cs := calibrateScores s.ncf s.conditional s.condition cal.1 cal.2 x y
  { s with cal := some cal, categories := cs.1, cal_scores := cs.2 }

/-- `IcpRegressor.predict` with a single numeric significance
(lines 336–356): test rows are grouped by category (condition applied with
a `None` label), each group present among `self.categories` is sent to the
nonconformity function together with that category's score array, and the
per-group results are scattered back into an `np.zeros`-initialised result
in the original row order.  Row `j` receives the `k`-th row of its group's
result, where `k` is the rank of `j` among the rows of the same category. -/
def IcpRegressor.predict1 (s : IcpRegressor) (x : List Row) (sig : ℚ) :
    List (ℚ × ℚ) :=
  let cmap := x.map (fun r => s.condition (r, none))
  (List.range x.length).map (fun j =>
    let c := cmap.getD j 0
    if c ∈ s.categories then
      let mask := cmap.map (fun m => decide (m = c))
      let p := s.ncPredict (maskSelect x mask) (s.cal_scores c) sig
      p.getD ((cmap.take j).countP (fun m => decide (m = c))) (0, 0)
    else (0, 0))

/-- Nonconformity function used by the concrete instances below: the score
of an example is its first feature (the label is ignored); `calc_nc` maps
it over the batch. -/
def ncFirst : List Row → List ℚ → List ℚ :=
  fun xs _ => xs.map (fun r => r.getD 0 0)

/-- Condition function used by the concrete conditional instances below:
the category is `1` when the label is `1`, else `0`. -/
def condLabel : Row × Option ℚ → ℤ :=
  fun p => if p.2 = some 1 then 1 else 0

/-- A zero draw for the (unused, non-smoothed) smoothing variable. -/
def u0 : ℕ → ℕ → ℚ := fun _ _ => 0

/-- The single-category classifier of the spec's scenario: non-conditional,
non-smoothed, calibrated on four examples whose nonconformity scores are
`0.1, 0.4, 0.4, 0.9` (all with label `0`). -/
def scState : IcpClassifier :=
  (IcpClassifier.init ncFirst none false).calibrate
    [[1/10], [2/5], [2/5], [9/10]] [0, 0, 0, 0] false

/-- A conditional classifier calibrated (non-incrementally) on the single
example `x = [1], y = 0` (category `0`, score `1`). -/
def condStateA : IcpClassifier :=
  (IcpClassifier.init ncFirst (some condLabel) false).calibrate [[1]] [0] false

/-- `condStateA` after an incremental `calibrate` on the single example
`x = [2], y = 1` (category `1`, score `2`). -/
def condStateB : IcpClassifier :=
  condStateA.calibrate [[2]] [1] true

/-- The same conditional classifier calibrated once on the concatenation of
the two batches of `condStateA`/`condStateB`. -/
def condStateBatch : IcpClassifier :=
  (IcpClassifier.init ncFirst (some condLabel) false).calibrate
    [[1], [2]] [0, 1] false

/-- Condition function keyed on the first feature: category `0` below `2`,
category `1` from `2` on. -/
def condFeat : Row × Option ℚ → ℤ :=
  fun p => if p.1.getD 0 0 < 2 then 0 else 1

/-- A conditional, non-smoothed classifier calibrated on the single example
`x = [1], y = 0`, whose (only) category is `0`. -/
def condFeatState : IcpClassifier :=
  IcpClassifier.init ncFirst (some condFeat) false

/-- Interval constructor of the concrete regressor instance: the constant
interval `(0, 1)` for every row. -/
def ncPredConst : List Row → List ℚ → ℚ → List (ℚ × ℚ) :=
  fun xs _ _ => xs.map (fun _ => (0, 1))

/-- A non-conditional regressor calibrated on the single example
`x = [1], y = 0`. -/
def regState : IcpRegressor :=
  (IcpRegressor.init ncFirst ncPredConst none).calibrate [[1]] [0] false

/-- A constant one-half draw for the smoothing variable. -/
def uHalf : ℕ → ℕ → ℚ := fun _ _ => 1/2

/-! ### Counting lemmas for the searchsorted arithmetic -/

/-- Entries strictly below `v` plus entries equal to `v` are the entries at
most `v`. -/
theorem countP_lt_add_eq (l : List ℚ) (v : ℚ) :
    l.countP (fun s => decide (s < v)) + l.countP (fun s => decide (s = v))
      = l.countP (fun s => decide (s ≤ v)) := by
  induction l with
  | nil => simp
  | cons a t ih =>
    simp only [List.countP_cons]
    rcases lt_trichotomy a v with h | h | h
    · simp [h, h.le, h.ne]
      omega
    · subst h
      simp
      omega
    · simp [h.ne', not_lt.mpr h.le, not_le.mpr h, not_lt_of_lt h]
      omega

/-- Entries at most `v` plus entries strictly above `v` exhaust the list. -/
theorem countP_le_add_gt (l : List ℚ) (v : ℚ) :
    l.countP (fun s => decide (s ≤ v)) + l.countP (fun s => decide (v < s))
      = l.length := by
  induction l with
  | nil => simp
  | cons a t ih =>
    simp only [List.countP_cons, List.length_cons]
    rcases le_or_lt a v with h | h
    · simp [h, not_lt.mpr h]
      omega
    · simp [not_le.mpr h, h]
      omega

/-- The insertion-point arithmetic of `IcpClassifier.predict` in closed
form: `n_gt` is the number of stored scores strictly greater than `nc`,
`n_eq` is the number of stored scores equal to `nc` plus one. -/
theorem pValue_eq (stored : List ℚ) (nc : ℚ) (sm : Bool) (u : ℚ) :
    pValue stored nc sm u =
      ((stored.countP (fun s => decide (nc < s)) : ℚ)) / (stored.length + 1) +
      (if sm then
        ((stored.countP (fun s => decide (s = nc)) : ℚ) + 1) * u / (stored.length + 1)
       else
        ((stored.countP (fun s => decide (s = nc)) : ℚ) + 1) / (stored.length + 1)) := by
  have h1 := countP_le_add_gt stored nc
  have h2 := countP_lt_add_eq stored nc
  simp only [pValue, searchsortedL, searchsortedR, List.countP_reverse,
    List.length_reverse]
  have e1 : stored.length - stored.countP (fun s => decide (s ≤ nc))
      = stored.countP (fun s => decide (nc < s)) := by omega
  have e2 : stored.countP (fun s => decide (s ≤ nc))
        - stored.countP (fun s => decide (s < nc))
      = stored.countP (fun s => decide (s = nc)) := by omega
  rw [e1, e2]
  split <;> push_cast <;> ring

/-- With `smoothing` disabled the drawn value is unused. -/
theorem pValue_smoothing_false (stored : List ℚ) (nc : ℚ) (a b : ℚ) :
    pValue stored nc false a = pValue stored nc false b := by
  simp [pValue]

/-- A p-value of the classifier lies in `[0, 1]` whenever the drawn
smoothing value lies in `[0, 1)` (the range of `np.random.uniform(0, 1)`);
for disabled smoothing the draw is irrelevant. -/
theorem pValue_mem_unit (stored : List ℚ) (nc : ℚ) (sm : Bool) (u : ℚ)
    (h0 : 0 ≤ u) (h1 : u < 1) :
    0 ≤ pValue stored nc sm u ∧ pValue stored nc sm u ≤ 1 := by
  have h1' := countP_le_add_gt stored nc
  have h2' := countP_lt_add_eq stored nc
  rw [pValue_eq]
  have hn : (0 : ℚ) < (stored.length : ℚ) + 1 := by positivity
  have hge : stored.countP (fun s => decide (nc < s))
      + stored.countP (fun s => decide (s = nc)) ≤ stored.length := by omega
  have key : ∀ w : ℚ, 0 ≤ w → w ≤ 1 →
      0 ≤ ((stored.countP (fun s => decide (nc < s)) : ℚ)) / (stored.length + 1)
        + ((stored.countP (fun s => decide (s = nc)) : ℚ) + 1) * w / (stored.length + 1)
      ∧ ((stored.countP (fun s => decide (nc < s)) : ℚ)) / (stored.length + 1)
        + ((stored.countP (fun s => decide (s = nc)) : ℚ) + 1) * w / (stored.length + 1) ≤ 1 := by
    intro w hw0 hw1
    constructor
    · positivity
    · rw [div_add_div_same, div_le_one hn]
      have hmul : ((stored.countP (fun s => decide (s = nc)) : ℚ) + 1) * w
          ≤ ((stored.countP (fun s => decide (s = nc)) : ℚ) + 1) * 1 := by
        apply mul_le_mul_of_nonneg_left hw1 (by positivity)
      have hcast : ((stored.countP (fun s => decide (nc < s)) : ℚ))
          + (((stored.countP (fun s => decide (s = nc)) : ℚ)) + 1)
          ≤ (stored.length : ℚ) + 1 := by
        exact_mod_cast Nat.add_le_add_right hge 1
      nlinarith
  rcases sm with _ | _
  · simpa using key 1 zero_le_one le_rfl
  · simpa using key u h0 h1.le

/-! ### Access lemmas for the prediction matrices -/

/-- Indexing a map over `List.range` within bounds. -/
theorem getD_range_map {α : Type} (f : ℕ → α) (n j : ℕ) (d : α) (hj : j < n) :
    ((List.range n).map f).getD j d = f j := by
  rw [List.getD_eq_getElem?_getD]
  simp [List.getElem?_range, hj]

/-- Indexing a map over `List.range` out of bounds yields the default. -/
theorem getD_range_map_oob {α : Type} (f : ℕ → α) (n j : ℕ) (d : α)
    (hj : n ≤ j) :
    ((List.range n).map f).getD j d = d := by
  rw [List.getD_eq_getElem?_getD]
  rw [List.getElem?_eq_none (by simpa using hj)]
  rfl

/-- Shape of the p-value matrix once the class registry exists. -/
theorem predict_p_some (s : IcpClassifier) (x : List Row) (u : ℕ → ℕ → ℚ)
    (cs : List ℚ) (hcs : s.classes = some cs) :
    s.predict_p x u = some ((List.range x.length).map (fun j =>
      (List.range cs.length).map (fun i => pEntry s x u cs j i))) := by
  rw [IcpClassifier.predict_p, hcs, Option.map_some']

/-- In-bounds entry of the p-value matrix. -/
theorem mGet_predict_p (s : IcpClassifier) (x : List Row) (u : ℕ → ℕ → ℚ)
    (cs : List ℚ) (j i : ℕ) (hcs : s.classes = some cs) (hj : j < x.length)
    (hi : i < cs.length) :
    mGet (s.predict_p x u) j i = pEntry s x u cs j i := by
  rw [mGet, predict_p_some s x u cs hcs, Option.getD_some,
    getD_range_map _ _ _ _ hj, getD_range_map _ _ _ _ hi]

/-- Out-of-bounds entries of the p-value matrix are the `np.zeros`
default. -/
theorem mGet_predict_p_oob (s : IcpClassifier) (x : List Row)
    (u : ℕ → ℕ → ℚ) (cs : List ℚ) (j i : ℕ) (hcs : s.classes = some cs)
    (h : x.length ≤ j ∨ cs.length ≤ i) :
    mGet (s.predict_p x u) j i = 0 := by
  rw [mGet, predict_p_some s x u cs hcs, Option.getD_some]
  rcases h with h | h
  · rw [getD_range_map_oob _ _ _ _ h]
    simp
  · rcases lt_or_le j x.length with hj | hj
    · rw [getD_range_map _ _ _ _ hj, getD_range_map_oob _ _ _ _ h]
    · rw [getD_range_map_oob _ _ _ _ hj]
      simp

/-- In-bounds entry of the boolean prediction-set matrix: the comparison
`p > significance` of the corresponding p-value. -/
theorem bGet_predict_sig (s : IcpClassifier) (x : List Row)
    (u : ℕ → ℕ → ℚ) (sig : ℚ) (cs : List ℚ) (j i : ℕ)
    (hcs : s.classes = some cs) (hj : j < x.length) (hi : i < cs.length) :
    bGet (s.predict_sig x u sig) j i = decide (sig < pEntry s x u cs j i) := by
  rw [bGet, IcpClassifier.predict_sig, predict_p_some s x u cs hcs,
    Option.map_some', Option.getD_some, List.map_map,
    getD_range_map _ _ _ _ hj, Function.comp_apply, List.map_map,
    getD_range_map _ _ _ _ hi, Function.comp_apply]

/-- Out-of-bounds entries of the boolean prediction-set matrix are
`false`. -/
theorem bGet_predict_sig_oob (s : IcpClassifier) (x : List Row)
    (u : ℕ → ℕ → ℚ) (sig : ℚ) (cs : List ℚ) (j i : ℕ)
    (hcs : s.classes = some cs) (h : x.length ≤ j ∨ cs.length ≤ i) :
    bGet (s.predict_sig x u sig) j i = false := by
  rw [bGet, IcpClassifier.predict_sig, predict_p_some s x u cs hcs,
    Option.map_some', Option.getD_some, List.map_map]
  rcases h with h | h
  · rw [getD_range_map_oob _ _ _ _ h]
    simp
  · rcases lt_or_le j x.length with hj | hj
    · rw [getD_range_map _ _ _ _ hj, Function.comp_apply, List.map_map,
        getD_range_map_oob _ _ _ _ h]
    · rw [getD_range_map_oob _ _ _ _ hj]
      simp

/-- With no class registry (`predict` before any `calibrate`) the source
crashes; in the embedding both prediction forms are `none`. -/
theorem predict_none (s : IcpClassifier) (x : List Row) (u : ℕ → ℕ → ℚ)
    (sig : ℚ) (hcs : s.classes = none) :
    s.predict_p x u = none ∧ s.predict_sig x u sig = none := by
  constructor
  · rw [IcpClassifier.predict_p, hcs]; rfl
  · rw [IcpClassifier.predict_sig, IcpClassifier.predict_p, hcs]; rfl

/-- Every entry of the p-value matrix (in or out of bounds, calibrated or
not) lies in `[0, 1]` when the smoothing draws lie in `[0, 1)`. -/
theorem predict_p_entry_unit (s : IcpClassifier) (x : List Row)
    (u : ℕ → ℕ → ℚ) (hu : ∀ j i, 0 ≤ u j i ∧ u j i < 1) (j i : ℕ) :
    0 ≤ mGet (s.predict_p x u) j i ∧ mGet (s.predict_p x u) j i ≤ 1 := by
  cases hcs : s.classes with
  | none =>
    rw [(predict_none s x u 0 hcs).1]
    simp [mGet]
  | some cs =>
    rcases lt_or_le j x.length with hj | hj
    · rcases lt_or_le i cs.length with hi | hi
      · rw [mGet_predict_p s x u cs j i hcs hj hi, pEntry]
        split
        · exact pValue_mem_unit _ _ _ _ (hu j i).1 (hu j i).2
        · norm_num
      · rw [mGet_predict_p_oob s x u cs j i hcs (Or.inr hi)]
        norm_num
    · rw [mGet_predict_p_oob s x u cs j i hcs (Or.inl hj)]
      norm_num

/-! ### Claim theorems -/

/-- C3: for every test example `j` and candidate class index `i`,
`IcpClassifier.predict` computes the p-value from the category's score
array `cal` as `n_gt / (n_cal + 1)` plus the tie term, where `n_gt` is the
number of calibration scores strictly greater than the test nonconformity
score and `n_eq` is the number of equal scores plus one (the test point),
both obtained from the leftmost/rightmost insertion points; with smoothing
the tie term is `n_eq * U / (n_cal + 1)` for the drawn `U`, without it is
`n_eq / (n_cal + 1)`. -/
theorem claim_C3_pvalue_formula (s : IcpClassifier) (x : List Row)
    (u : ℕ → ℕ → ℚ) (cs : List ℚ) (j i : ℕ)
    (hcs : s.classes = some cs) (hj : j < x.length) (hi : i < cs.length)
    (hlen : (s.ncf x (List.replicate x.length (cs.getD i 0))).length
      = x.length) :
    mGet (s.predict_p x u) j i =
      (((s.cal_scores (s.condition (x.getD j [], some (cs.getD i 0)))).countP
          (fun t => decide ((s.ncf x (List.replicate x.length
            (cs.getD i 0))).getD j 0 < t)) : ℚ))
        / ((s.cal_scores (s.condition (x.getD j [],
            some (cs.getD i 0)))).length + 1) +
      (if s.smoothing then
        (((s.cal_scores (s.condition (x.getD j [], some (cs.getD i 0)))).countP
            (fun t => decide (t = (s.ncf x (List.replicate x.length
              (cs.getD i 0))).getD j 0)) : ℚ) + 1) * u j i
          / ((s.cal_scores (s.condition (x.getD j [],
              some (cs.getD i 0)))).length + 1)
       else
        (((s.cal_scores (s.condition (x.getD j [], some (cs.getD i 0)))).countP
            (fun t => decide (t = (s.ncf x (List.replicate x.length
              (cs.getD i 0))).getD j 0)) : ℚ) + 1)
          / ((s.cal_scores (s.condition (x.getD j [],
              some (cs.getD i 0)))).length + 1)) := by
  rw [mGet_predict_p s x u cs j i hcs hj hi]
  simp only [pEntry]
  rw [if_pos (show j < _ by rw [hlen]; exact hj)]
  exact pValue_eq _ _ _ _

/-- Witness for C3 at the spec's scenario state: the formula evaluates to
`4/5` there. -/
theorem claim_C3_pvalue_formula_witness :
    mGet (IcpClassifier.predict_p scState [[2/5]] u0) 0 0 = 4/5 := by
  rw [claim_C3_pvalue_formula scState [[2/5]] u0 [0] 0 0 (by decide)
    (by decide) (by decide) (by decide)]
  norm_num [scState, IcpClassifier.init, IcpClassifier.calibrate,
    updateClasses, updateCalibrationSet, calibrateScores, npUnique, ncFirst,
    sortDesc, List.dedup, List.insertionSort, List.orderedInsert,
    List.countP, List.countP.go]

/-- C8: every p-value produced by `IcpClassifier.predict` lies in `[0, 1]`
(for every draw of the smoothing variable in `[0, 1)`, smoothing enabled or
not), and with smoothing disabled the p-value matrix does not depend on the
draws at all — two calls on identical inputs return identical matrices. -/
theorem claim_C8_unit_deterministic (s : IcpClassifier) (x : List Row)
    (u v : ℕ → ℕ → ℚ) (hu : ∀ j i, 0 ≤ u j i ∧ u j i < 1) :
    (∀ j i, 0 ≤ mGet (s.predict_p x u) j i
      ∧ mGet (s.predict_p x u) j i ≤ 1) ∧
    (s.smoothing = false → s.predict_p x u = s.predict_p x v) := by
  refine ⟨predict_p_entry_unit s x u hu, fun hsm => ?_⟩
  cases hcs : s.classes with
  | none => rw [(predict_none s x u 0 hcs).1, (predict_none s x v 0 hcs).1]
  | some cs =>
    rw [predict_p_some s x u cs hcs, predict_p_some s x v cs hcs]
    congr 1
    apply List.map_congr_left
    intro j _
    apply List.map_congr_left
    intro i _
    simp only [pEntry, hsm]
    split
    · exact pValue_smoothing_false _ _ _ _
    · rfl

/-- Witness for C8 at the scenario state with draws `0` and `1/2`. -/
theorem claim_C8_unit_deterministic_witness :
    (0 ≤ mGet (IcpClassifier.predict_p scState [[2/5]] u0) 0 0
      ∧ mGet (IcpClassifier.predict_p scState [[2/5]] u0) 0 0 ≤ 1) ∧
    IcpClassifier.predict_p scState [[2/5]] u0
      = IcpClassifier.predict_p scState [[2/5]] uHalf := by
  have h := claim_C8_unit_deterministic scState [[2/5]] u0 uHalf
    (fun j i => by norm_num [u0])
  exact ⟨h.1 0 0, h.2 rfl⟩

/-- C7: over the same computed p-value matrix, a label included in the
prediction set at the larger significance `a₂` (p-value `> a₂`) is also
included at any smaller significance `a₁`. -/
theorem claim_C7_monotonic (s : IcpClassifier) (x : List Row)
    (u : ℕ → ℕ → ℚ) (a₁ a₂ : ℚ) (j i : ℕ) (h12 : a₁ < a₂)
    (h2 : bGet (s.predict_sig x u a₂) j i = true) :
    bGet (s.predict_sig x u a₁) j i = true := by
  cases hcs : s.classes with
  | none =>
    rw [(predict_none s x u a₂ hcs).2] at h2
    simp [bGet] at h2
  | some cs =>
    rcases lt_or_le j x.length with hj | hj
    · rcases lt_or_le i cs.length with hi | hi
      · rw [bGet_predict_sig s x u a₂ cs j i hcs hj hi,
          decide_eq_true_eq] at h2
        rw [bGet_predict_sig s x u a₁ cs j i hcs hj hi, decide_eq_true_eq]
        exact lt_trans h12 h2
      · rw [bGet_predict_sig_oob s x u a₂ cs j i hcs (Or.inr hi)] at h2
        exact absurd h2 (by simp)
    · rw [bGet_predict_sig_oob s x u a₂ cs j i hcs (Or.inl hj)] at h2
      exact absurd h2 (by simp)

/-- Witness for C7: at the scenario state the label is included at `7/10`,
hence also at `1/2`. -/
theorem claim_C7_monotonic_witness :
    bGet (IcpClassifier.predict_sig scState [[2/5]] u0 (1/2)) 0 0 = true := by
  apply claim_C7_monotonic scState [[2/5]] u0 (1/2) (7/10) 0 0 (by norm_num)
  norm_num [bGet, IcpClassifier.predict_sig, IcpClassifier.predict_p, pEntry,
    pValue, searchsortedL, searchsortedR, scState, IcpClassifier.init,
    IcpClassifier.calibrate, updateClasses, updateCalibrationSet,
    calibrateScores, npUnique, ncFirst, sortDesc, u0, List.dedup,
    List.insertionSort, List.orderedInsert, List.countP, List.countP.go]

/-- C9 (counterexample): with significance `2` — outside `(0, 1)` — both
`IcpClassifier.predict` and `IcpRegressor.predict` return an ordinary
result (a prediction-set row, respectively an interval) instead of
rejecting the call: no input validation exists in either method. -/
theorem claim_C9_counterexample :
    IcpClassifier.predict_sig scState [[2/5]] u0 2 = some [[false]] ∧
    IcpRegressor.predict1 regState [[1]] 2 = [(0, 1)] := by
  constructor
  · norm_num [IcpClassifier.predict_sig, IcpClassifier.predict_p, pEntry,
      pValue, searchsortedL, searchsortedR, scState, IcpClassifier.init,
      IcpClassifier.calibrate, updateClasses, updateCalibrationSet,
      calibrateScores, npUnique, ncFirst, sortDesc, u0, List.dedup,
      List.insertionSort, List.orderedInsert, List.countP, List.countP.go,
      List.range, List.range.loop, Function.comp]
  · norm_num [IcpRegressor.predict1, regState, IcpRegressor.init,
      IcpRegressor.calibrate, updateCalibrationSet, calibrateScores,
      npUnique, ncFirst, ncPredConst, maskSelect, sortDesc, List.dedup,
      List.insertionSort, List.orderedInsert, List.countP, List.countP.go,
      List.range, List.range.loop]

/-- C9 (amended): neither predict method validates its significance
argument.  The classifier compares the p-values against any significance
whatsoever — for significance `≥ 1` every entry of the returned matrix is
`false` — and the regressor forwards any significance to the nonconformity
function, returning one interval per test row. -/
theorem claim_C9_no_validation (s : IcpClassifier) (x : List Row)
    (u : ℕ → ℕ → ℚ) (sig : ℚ) (hsig : 1 ≤ sig)
    (hu : ∀ j i, 0 ≤ u j i ∧ u j i < 1)
    (r : IcpRegressor) (xr : List Row) (sigr : ℚ) :
    (∀ j i, bGet (s.predict_sig x u sig) j i = false) ∧
    (r.predict1 xr sigr).length = xr.length := by
  constructor
  · intro j i
    cases hcs : s.classes with
    | none =>
      rw [(predict_none s x u sig hcs).2]
      simp [bGet]
    | some cs =>
      rcases lt_or_le j x.length with hj | hj
      · rcases lt_or_le i cs.length with hi | hi
        · rw [bGet_predict_sig s x u sig cs j i hcs hj hi,
            decide_eq_false_iff_not]
          have hle := (predict_p_entry_unit s x u hu j i).2
          rw [mGet_predict_p s x u cs j i hcs hj hi] at hle
          exact not_lt.mpr (hle.trans hsig)
        · exact bGet_predict_sig_oob s x u sig cs j i hcs (Or.inr hi)
      · exact bGet_predict_sig_oob s x u sig cs j i hcs (Or.inl hj)
  · simp [IcpRegressor.predict1]

/-- Witness for C9 (amended) at the concrete states with significance 2. -/
theorem claim_C9_no_validation_witness :
    bGet (IcpClassifier.predict_sig scState [[2/5]] u0 2) 0 0 = false ∧
    (IcpRegressor.predict1 regState [[1]] 2).length = 1 := by
  have h := claim_C9_no_validation scState [[2/5]] u0 2 (by norm_num)
    (fun j i => by norm_num [u0]) regState [[1]] 2
  exact ⟨h.1 0 0, h.2⟩

/-- C10: for a conditional classifier, when a (test example, candidate
class) pair maps to a category absent from the calibration categories, the
`defaultdict` yields the empty score array, so with smoothing disabled the
p-value of that pair is exactly `1` and the label is included in the
prediction set at every significance below `1`. -/
theorem claim_C10_unseen_category (s0 : IcpClassifier) (x0 : List Row)
    (y0 : List ℚ) (inc : Bool) (xt : List Row) (u : ℕ → ℕ → ℚ)
    (cs : List ℚ) (j i : ℕ) (sig : ℚ)
    (hcond : s0.conditional = true) (hsm : s0.smoothing = false)
    (hcs : (s0.calibrate x0 y0 inc).classes = some cs)
    (hj : j < xt.length) (hi : i < cs.length)
    (hlen : (s0.ncf xt (List.replicate xt.length (cs.getD i 0))).length
      = xt.length)
    (hcat : s0.condition (xt.getD j [], some (cs.getD i 0))
      ∉ (s0.calibrate x0 y0 inc).categories)
    (hsig : sig < 1) :
    mGet ((s0.calibrate x0 y0 inc).predict_p xt u) j i = 1 ∧
    bGet ((s0.calibrate x0 y0 inc).predict_sig xt u sig) j i = true := by
  have hscores : (s0.calibrate x0 y0 inc).cal_scores
      (s0.condition (xt.getD j [], some (cs.getD i 0))) = [] := by
    simp only [IcpClassifier.calibrate, calibrateScores, hcond,
      if_true] at hcat ⊢
    rw [if_neg hcat]
  have hp : mGet ((s0.calibrate x0 y0 inc).predict_p xt u) j i = 1 := by
    rw [mGet_predict_p _ xt u cs j i hcs hj hi]
    show pEntry (s0.calibrate x0 y0 inc) xt u cs j i = 1
    simp only [pEntry]
    have hncf : (s0.calibrate x0 y0 inc).ncf = s0.ncf := rfl
    have hcondeq : (s0.calibrate x0 y0 inc).condition = s0.condition := rfl
    have hsmeq : (s0.calibrate x0 y0 inc).smoothing = s0.smoothing := rfl
    rw [hncf, hcondeq, hsmeq, hsm,
      if_pos (show j < _ by rw [hlen]; exact hj), hscores]
    norm_num [pValue, searchsortedL, searchsortedR]
  refine ⟨hp, ?_⟩
  rw [bGet_predict_sig _ xt u sig cs j i hcs hj hi, decide_eq_true_eq]
  rw [mGet_predict_p _ xt u cs j i hcs hj hi] at hp
  rw [hp]
  exact hsig

/-- Witness for C10: the conditional classifier calibrated only on
category `0` includes the unseen-category test example `[5]` with p-value
`1`. -/
theorem claim_C10_unseen_category_witness :
    mGet ((condFeatState.calibrate [[1]] [0] false).predict_p [[5]] u0) 0 0
      = 1 ∧
    bGet ((condFeatState.calibrate [[1]] [0] false).predict_sig [[5]] u0
      (1/2)) 0 0 = true :=
  claim_C10_unseen_category condFeatState [[1]] [0] false [[5]] u0 [0] 0 0
    (1/2) rfl rfl (by decide) (by decide) (by decide) (by decide)
    (by decide) (by norm_num)

/-- C1 (failing input): `calibrate` on a conditional predictor with
`increment=True`.  After calibrating on `(x=[1], y=0)` (category `0`) and
incrementally on `(x=[2], y=1)` (category `1`), the merged calibration set
holds both examples, but the categories are derived from the *new batch
only* — category `0` is gone — and category `1`'s score array holds the
score of the *old* example (`1`, the score of `x=[1]`) rather than the
score of its own example (`2`): the condition function was never applied
to the merged set. -/
theorem claim_C1_conditional_increment_bug :
    condStateB.cal = some ([[1], [2]], [0, 1]) ∧
    condStateB.categories = [1] ∧
    condStateB.cal_scores 1 = [1] ∧
    condStateB.cal_scores 0 = [] := by
  refine ⟨?_, ?_, ?_, ?_⟩ <;> decide

/-- C4 (failing input): after the incremental conditional `calibrate` of
`condStateB` the per-category score arrays do not partition the stored
calibration set — their sizes sum to `1` while the calibration set holds
`2` examples. -/
theorem claim_C4_partition_bug :
    (condStateB.cal.getD ([], [])).2.length = 2 ∧
    (condStateB.categories.map
      (fun c => (condStateB.cal_scores c).length)).sum = 1 := by
  constructor <;> decide

/-- C5 (failing input): calibrating the conditional predictor once on the
concatenated batches yields the same calibration set as calibrating
incrementally, but different categories and a different score table for
category `1` — so the two calibration routes are not equivalent. -/
theorem claim_C5_increment_equivalence_bug :
    condStateBatch.cal = condStateB.cal ∧
    condStateBatch.categories = [0, 1] ∧
    condStateB.categories = [1] ∧
    condStateBatch.cal_scores 1 = [2] ∧
    condStateB.cal_scores 1 = [1] := by
  refine ⟨?_, ?_, ?_, ?_, ?_⟩ <;> decide

/-- The p-value matrix of the spec's scenario: calibration scores
`0.1, 0.4, 0.4, 0.9`, test score `0.4`, smoothing disabled — the single
p-value is `4/5`. -/
theorem scState_p :
    IcpClassifier.predict_p scState [[2/5]] u0 = some [[4/5]] := by
  norm_num [IcpClassifier.predict_p, pEntry, pValue, searchsortedL,
    searchsortedR, scState, IcpClassifier.init, IcpClassifier.calibrate,
    updateClasses, updateCalibrationSet, calibrateScores, npUnique, ncFirst,
    sortDesc, u0, List.dedup, List.insertionSort, List.orderedInsert,
    List.countP, List.countP.go, List.range, List.range.loop]

/-- C2 (counterexample): on the claimed scenario the code does *not*
produce the p-value `3/5 = 0.6`, and at significance `0.7` the label is
*included* (`True`), not excluded. -/
theorem claim_C2_counterexample :
    IcpClassifier.predict_p scState [[2/5]] u0 ≠ some [[3/5]] ∧
    IcpClassifier.predict_sig scState [[2/5]] u0 (7/10) = some [[true]] := by
  constructor
  · rw [scState_p]
    intro h
    rw [Option.some_inj] at h
    have := List.head_eq_of_cons_eq h
    have := List.head_eq_of_cons_eq this
    norm_num at this
  · rw [IcpClassifier.predict_sig, scState_p, Option.map_some']
    norm_num

/-- C2 (amended): on calibration scores `{0.1, 0.4, 0.4, 0.9}` with test
score `0.4` and smoothing disabled, the insertion points are `1` (left)
and `3` (right), so `n_gt = 1`, `n_eq = 2 + 1 = 3` (the two equal
calibration scores plus the test point), `n_cal = 4`, and the p-value is
`(1 + 3)/5 = 4/5 = 0.8`; the label is included at significance `0.5` and
also at significance `0.7` (`0.8 > 0.7`). -/
theorem claim_C2_scenario :
    searchsortedL (sortDesc [1/10, 2/5, 2/5, 9/10]).reverse (2/5) = 1 ∧
    searchsortedR (sortDesc [1/10, 2/5, 2/5, 9/10]).reverse (2/5) = 3 ∧
    IcpClassifier.predict_p scState [[2/5]] u0 = some [[4/5]] ∧
    IcpClassifier.predict_sig scState [[2/5]] u0 (1/2) = some [[true]] ∧
    IcpClassifier.predict_sig scState [[2/5]] u0 (7/10) = some [[true]] := by
  refine ⟨?_, ?_, scState_p, ?_, ?_⟩
  · norm_num [searchsortedL, sortDesc, List.insertionSort,
      List.orderedInsert, List.countP, List.countP.go]
  · norm_num [searchsortedR, sortDesc, List.insertionSort,
      List.orderedInsert, List.countP, List.countP.go]
  · rw [IcpClassifier.predict_sig, scState_p, Option.map_some']
    norm_num
  · rw [IcpClassifier.predict_sig, scState_p, Option.map_some']
    norm_num

/-- C6 (counterexample): the class registry does not merge across
non-incremental `calibrate` calls — after calibrating on labels `{0, 1}`
and then (non-incrementally) on label `{2}`, the registry is `[2]`: the
previously observed labels `0` and `1` have been removed. -/
theorem claim_C6_counterexample :
    ((IcpClassifier.init ncFirst none false).calibrate
      [[1], [2]] [0, 1] false).classes = some [0, 1] ∧
    (((IcpClassifier.init ncFirst none false).calibrate
      [[1], [2]] [0, 1] false).calibrate [[3]] [2] false).classes
      = some [2] := by
  constructor <;> decide

/-- C6 (amended): an incremental (`increment=True`) `calibrate` call never
removes a label — the new registry contains every label of the old
registry and every new label — while a non-incremental call replaces the
registry with the sorted distinct labels of that call alone. -/
theorem claim_C6_classes (s : IcpClassifier) (x : List Row) (y : List ℚ)
    (cs : List ℚ) (a : ℚ) (hcs : s.classes = some cs)
    (ha : a ∈ cs ∨ a ∈ y) :
    a ∈ (s.calibrate x y true).classes.getD [] ∧
    (s.calibrate x y false).classes = some (npUnique y) := by
  constructor
  · have h : (s.calibrate x y true).classes = some (npUnique (cs ++ y)) := by
      simp [IcpClassifier.calibrate, updateClasses, hcs]
    rw [h, Option.getD_some, npUnique,
      (List.perm_insertionSort _ _).mem_iff, List.mem_dedup, List.mem_append]
    exact ha
  · simp [IcpClassifier.calibrate, updateClasses, hcs]

/-- Witness for C6 (amended): label `0`, observed in the first calibrate
call, survives an incremental recalibration on label `2`. -/
theorem claim_C6_classes_witness :
    (0 : ℚ) ∈ (((IcpClassifier.init ncFirst none false).calibrate
      [[1], [2]] [0, 1] false).calibrate [[3]] [2] true).classes.getD [] ∧
    (((IcpClassifier.init ncFirst none false).calibrate
      [[1], [2]] [0, 1] false).calibrate [[3]] [2] false).classes
      = some (npUnique [2]) :=
  claim_C6_classes _ [[3]] [2] [0, 1] 0 (by decide) (Or.inl (by decide))
